import Mathlib

/-!
Shallow embedding of the Chip-8 interpreter core in `src/cpu.rs` (struct `Cpu`
and its `impl` block), together with theorems checking the specification's
claims about it.

Machine integers are modelled as `Nat` with explicit truncation where the
Rust types wrap: register cells are `u8` (writes are taken `% 256` where the
source can overflow), stack cells are `u16` (writes `% 65536`).  Arrays
(`registers: [u8; 16]`, `memory: [u8; 4096]`, `stack: [u16; 16]`) are
modelled as total functions `Nat → Nat`; every place where the Rust code
indexes an array with an index that is not statically in bounds carries an
explicit bounds check mirroring Rust's index panic (`Fault.outOfBounds`).
Register indices produced by the decoder are 4-bit nibbles, hence always
`< 16`, so the register indexing in the handlers cannot fault and is left
unchecked.  Rust `panic!` calls and index panics become `Fault` values.
-/

/-- Pointwise update of a function modelling an array write `f[i] = v`. -/
def updateFn (f : Nat → Nat) (i v : Nat) : Nat → Nat :=
  fun j => if j = i then v else f j

/-- The fatal conditions of the interpreter: the two explicit `panic!` calls
in `call`/`ret`, Rust's implicit index-out-of-bounds panic, and the
`unimplemented!` macro in `run`. -/
inductive Fault where
  | stackOverflow
  | stackUnderflow
  | outOfBounds
  | unimplementedOpcode
deriving DecidableEq

/-- The architectural state of `struct Cpu` in `src/cpu.rs`. -/
structure Cpu where
  registers : Nat → Nat
  memory : Nat → Nat
  position_in_memory : Nat
  stack : Nat → Nat
  stack_pointer : Nat

/-- `impl Default for Cpu`: everything zeroed. -/
def Cpu.default : Cpu :=
  { registers := fun _ => 0
    memory := fun _ => 0
    position_in_memory := 0
    stack := fun _ => 0
    stack_pointer := 0 }

/-- `Cpu::reset`: zeroes registers, memory, stack, program counter and stack
pointer. -/
def Cpu.reset (s : Cpu) : Cpu :=
  { s with
    registers := fun _ => 0
    memory := fun _ => 0
    stack := fun _ => 0
    position_in_memory := 0
    stack_pointer := 0 }

/-- `Cpu::call`: the source checks `sp > stack.len()` (i.e. `sp > 16`) and
panics with "Stack overflow"; otherwise `stack[sp] = position_in_memory as
u16` (which itself panics out of bounds when `sp = 16`), increments the
stack pointer and jumps. -/
def Cpu.call (s : Cpu) (addr : Nat) : Except Fault Cpu :=
  if s.stack_pointer > 16 then
    Except.error Fault.stackOverflow
  else if s.stack_pointer < 16 then
    Except.ok
      { s with
        stack := updateFn s.stack s.stack_pointer (s.position_in_memory % 65536)
        stack_pointer := s.stack_pointer + 1
        position_in_memory := addr }
  else
    Except.error Fault.outOfBounds

/-- `Cpu::ret`: panics with "Stack underflow" when the stack pointer is 0,
otherwise decrements it and reloads the program counter from the stack
(the stack read `stack[sp - 1]` carries Rust's bounds check). -/
def Cpu.ret (s : Cpu) : Except Fault Cpu :=
  if s.stack_pointer = 0 then
    Except.error Fault.stackUnderflow
  else if s.stack_pointer - 1 < 16 then
    Except.ok
      { s with
        stack_pointer := s.stack_pointer - 1
        position_in_memory := s.stack (s.stack_pointer - 1) }
  else
    Except.error Fault.outOfBounds

/-- `Cpu::assign` (0x8XY0): `registers[x] = registers[y]`. -/
def Cpu.assign (s : Cpu) (x y : Nat) : Cpu :=
  { s with registers := updateFn s.registers x (s.registers y) }

/-- `Cpu::or_xy` (0x8XY1): `registers[x] |= registers[y]`. -/
def Cpu.or_xy (s : Cpu) (x y : Nat) : Cpu :=
  { s with registers := updateFn s.registers x (s.registers x ||| s.registers y) }

/-- `Cpu::and_xy` (0x8XY2): `registers[x] &= registers[y]`. -/
def Cpu.and_xy (s : Cpu) (x y : Nat) : Cpu :=
  { s with registers := updateFn s.registers x (s.registers x &&& s.registers y) }

/-- `Cpu::xor_xy` (0x8XY3): `registers[x] ^= registers[y]`. -/
def Cpu.xor_xy (s : Cpu) (x y : Nat) : Cpu :=
  { s with registers := updateFn s.registers x (s.registers x ^^^ s.registers y) }

/-- `Cpu::add_xy` (0x8XY4): if `registers[x] > 0xFF - registers[y]` set the
flag register to 1 (and do not store), else set the flag to 0 and then do
`registers[x] += registers[y]`.  The reads of the `+=` happen after the
flag write, which matters when `x` or `y` is 15. -/
def Cpu.add_xy (s : Cpu) (x y : Nat) : Cpu :=
  if s.registers x > 255 - s.registers y then
    { s with registers := updateFn s.registers 15 1 }
  else
    let r1 := updateFn s.registers 15 0
    { s with registers := updateFn r1 x ((r1 x + r1 y) % 256) }

/-- `Cpu::sub_xy` (0x8XY5): if `registers[x] < registers[y]` set the flag to
0 (borrow, no store), else set the flag to 1 and do
`registers[x] -= registers[y]` (u8 subtraction, modelled wrapping). -/
def Cpu.sub_xy (s : Cpu) (x y : Nat) : Cpu :=
  if s.registers x < s.registers y then
    { s with registers := updateFn s.registers 15 0 }
  else
    let r1 := updateFn s.registers 15 1
    { s with registers := updateFn r1 x ((r1 x + 256 - r1 y) % 256) }

/-- `Cpu::shift_right_1` (0x8XY6): `registers[0xF] = registers[x] & 0x1`,
then `registers[x] >>= 1`. -/
def Cpu.shift_right_1 (s : Cpu) (x : Nat) : Cpu :=
  let r1 := updateFn s.registers 15 (s.registers x &&& 1)
  { s with registers := updateFn r1 x (r1 x >>> 1) }

/-- `Cpu::set_sub_xy` (0x8XY7): if `registers[x] > registers[y]` set the flag
to 0 (borrow, no store), else set the flag to 1 and do
`registers[x] = registers[y] - registers[x]` (u8 subtraction, modelled
wrapping). -/
def Cpu.set_sub_xy (s : Cpu) (x y : Nat) : Cpu :=
  if s.registers x > s.registers y then
    { s with registers := updateFn s.registers 15 0 }
  else
    let r1 := updateFn s.registers 15 1
    { s with registers := updateFn r1 x ((r1 y + 256 - r1 x) % 256) }

/-- `Cpu::shift_left_1` (0x8XYE): `registers[0xF] = registers[x] & 0x1`,
then `registers[x] <<= 1` (u8, high bit discarded). -/
def Cpu.shift_left_1 (s : Cpu) (x : Nat) : Cpu :=
  let r1 := updateFn s.registers 15 (s.registers x &&& 1)
  { s with registers := updateFn r1 x ((r1 x <<< 1) % 256) }

/-- The fetch of `Cpu::run`: `op_byte1 << 8 | op_byte2`, big-endian. -/
def fetchOpcode (s : Cpu) : Nat :=
  let op_byte1 := s.memory s.position_in_memory
  let op_byte2 := s.memory (s.position_in_memory + 1)
  op_byte1 <<< 8 ||| op_byte2

/-- Field extraction `((opcode & 0x0F00) >> 8)` of `Cpu::run`. -/
def opX (opcode : Nat) : Nat := (opcode &&& 0x0F00) >>> 8

/-- Field extraction `((opcode & 0x00F0) >> 4)` of `Cpu::run`. -/
def opY (opcode : Nat) : Nat := (opcode &&& 0x00F0) >>> 4

/-- Field extraction `(opcode & 0x000F)` of `Cpu::run`. -/
def opMinor (opcode : Nat) : Nat := opcode &&& 0x000F

/-- Field extraction `(opcode & 0x0FFF)` of `Cpu::run`. -/
def opAddr (opcode : Nat) : Nat := opcode &&& 0x0FFF

/-- Result of one iteration of the `loop` in `Cpu::run`: the `return` on
opcode 0x0000, fall-through to the next iteration, or a panic.  The panic
case carries the state at the moment of the abort. -/
inductive StepResult where
  | halt : Cpu → StepResult
  | next : Cpu → StepResult
  | fault : Fault → Cpu → StepResult

/-- The `match opcode` dispatch of `Cpu::run`, applied to the state whose
program counter has already been advanced past the instruction. -/
def Cpu.execute (s1 : Cpu) (opcode : Nat) : StepResult :=
  let x := opX opcode
  let y := opY opcode
  let op_minor := opMinor opcode
  let addr := opAddr opcode
  if opcode = 0x0000 then
    StepResult.halt s1
  else if opcode = 0x00EE then
    match s1.ret with
    | Except.ok s2 => StepResult.next s2
    | Except.error f => StepResult.fault f s1
  else if 0x2000 ≤ opcode ∧ opcode ≤ 0x2FFF then
    match s1.call addr with
    | Except.ok s2 => StepResult.next s2
    | Except.error f => StepResult.fault f s1
  else if 0x8000 ≤ opcode ∧ opcode ≤ 0x8FFF then
    if op_minor = 0x0 then StepResult.next (s1.assign x y)
    else if op_minor = 0x1 then StepResult.next (s1.or_xy x y)
    else if op_minor = 0x2 then StepResult.next (s1.and_xy x y)
    else if op_minor = 0x3 then StepResult.next (s1.xor_xy x y)
    else if op_minor = 0x4 then StepResult.next (s1.add_xy x y)
    else if op_minor = 0x5 then StepResult.next (s1.sub_xy x y)
    else if op_minor = 0x6 then StepResult.next (s1.shift_right_1 x)
    else if op_minor = 0x7 then StepResult.next (s1.set_sub_xy x y)
    else if op_minor = 0xE then StepResult.next (s1.shift_left_1 x)
    else StepResult.fault Fault.unimplementedOpcode s1
  else
    StepResult.fault Fault.unimplementedOpcode s1

/-- One iteration of the `loop` of `Cpu::run`: bounds-checked big-endian
fetch at the program counter, advance the counter by 2, then dispatch. -/
def Cpu.step (s : Cpu) : StepResult :=
  if s.position_in_memory + 1 < 4096 then
    Cpu.execute
      { s with position_in_memory := s.position_in_memory + 2 }
      (fetchOpcode s)
  else
    StepResult.fault Fault.outOfBounds s

/-- Outcome of `Cpu::run` bounded by a fuel parameter (the Rust loop has no
step limit; `outOfFuel` marks a run that was cut short by the bound). -/
inductive RunResult where
  | halted : Cpu → RunResult
  | fault : Fault → Cpu → RunResult
  | outOfFuel : Cpu → RunResult

/-- `Cpu::run`, iterating `Cpu.step` at most `fuel` times. -/
def Cpu.runFuel : Nat → Cpu → RunResult
  | 0, s => RunResult.outOfFuel s
  | fuel + 1, s =>
    match s.step with
    | StepResult.halt s2 => RunResult.halted s2
    | StepResult.fault f s2 => RunResult.fault f s2
    | StepResult.next s2 => Cpu.runFuel fuel s2

/-- The machine state carried by a step result. -/
def StepResult.cpu : StepResult → Cpu
  | StepResult.halt s => s
  | StepResult.next s => s
  | StepResult.fault _ s => s

/-- The machine state carried by a run result. -/
def RunResult.cpu : RunResult → Cpu
  | RunResult.halted s => s
  | RunResult.fault _ s => s
  | RunResult.outOfFuel s => s

/-! Concrete machine states used to instantiate the theorems below. -/

/-- State with registers 0 and 1 holding 200 and 100 (a carrying add). -/
def cpuAdd : Cpu :=
  { Cpu.default with
    registers := updateFn (updateFn Cpu.default.registers 0 200) 1 100 }

/-- State with registers 0 and 1 holding 10 and 6 (a non-borrowing sub). -/
def cpuSub : Cpu :=
  { Cpu.default with
    registers := updateFn (updateFn Cpu.default.registers 0 10) 1 6 }

/-- State with register 0 holding 3 (shift-left example of the spec). -/
def cpuShift : Cpu :=
  { Cpu.default with registers := updateFn Cpu.default.registers 0 3 }

/-- State whose stack pointer is at the full capacity 16. -/
def cpuFull : Cpu :=
  { Cpu.default with stack_pointer := 16 }

/-- State whose stack pointer is 17, past the capacity. -/
def cpuPast : Cpu :=
  { Cpu.default with stack_pointer := 17 }

/-- State whose first instruction is `0x2100` (call 0x100) and which holds
`0x00EE` (ret) at 0x100. -/
def cpuCall : Cpu :=
  { Cpu.default with
    memory := updateFn (updateFn Cpu.default.memory 0 0x21) 0x101 0xEE }

/-- State whose first instruction is `0x00EE` (ret on an empty stack). -/
def cpuRet : Cpu :=
  { Cpu.default with memory := updateFn Cpu.default.memory 1 0xEE }

/-- State with stack pointer 1 and 0x0123 in stack slot 0. -/
def cpuPop : Cpu :=
  { Cpu.default with
    stack := updateFn Cpu.default.stack 0 0x123
    stack_pointer := 1 }

/-- State with register 15 holding 3 (flag-aliasing example). -/
def cpuAlias : Cpu :=
  { Cpu.default with registers := updateFn Cpu.default.registers 15 3 }

/-- State with register 15 holding 3 and register 1 holding 7. -/
def cpuAlias2 : Cpu :=
  { Cpu.default with
    registers := updateFn (updateFn Cpu.default.registers 15 3) 1 7 }

/-! Helper lemmas. -/

theorem updateFn_eq (f : Nat → Nat) (i v : Nat) : updateFn f i v i = v := by
  simp [updateFn]

theorem updateFn_ne (f : Nat → Nat) (i v j : Nat) (h : j ≠ i) :
    updateFn f i v j = f j := by
  simp [updateFn, h]

theorem shiftLeft_lor_eq (b1 b2 : Nat) (h : b2 < 256) :
    b1 <<< 8 ||| b2 = b1 * 256 + b2 := by
  have h8 : b2 < 2 ^ 8 := by norm_num at *; omega
  calc b1 <<< 8 ||| b2 = 2 ^ 8 * b1 ||| b2 := by
        rw [Nat.shiftLeft_eq, Nat.mul_comm]
    _ = 2 ^ 8 * b1 + b2 := (Nat.mul_add_lt_is_or h8 b1).symm
    _ = b1 * 256 + b2 := by ring_nf

theorem opMinor_eq (n : Nat) : opMinor n = n % 16 := by
  have h : (0x000F : Nat) = 2 ^ 4 - 1 := by norm_num
  rw [opMinor, h, Nat.and_pow_two_sub_one_eq_mod]

theorem opAddr_eq (n : Nat) : opAddr n = n % 4096 := by
  have h : (0x0FFF : Nat) = 2 ^ 12 - 1 := by norm_num
  rw [opAddr, h, Nat.and_pow_two_sub_one_eq_mod]

theorem opX_eq (n : Nat) : opX n = n / 256 % 16 := by
  have h256 : n / 256 = n >>> 8 := by
    rw [Nat.shiftRight_eq_div_pow]
  have h16 : n >>> 8 % 16 = n >>> 8 % 2 ^ 4 := by norm_num
  rw [opX, h256, h16]
  apply Nat.eq_of_testBit_eq
  intro i
  rw [Nat.testBit_shiftRight, Nat.testBit_land n 0x0F00 (8 + i),
    Nat.testBit_mod_two_pow, Nat.testBit_shiftRight]
  rcases Nat.lt_or_ge i 4 with hi | hi
  · interval_cases i <;> simp +decide
  · have hf : Nat.testBit 0x0F00 (8 + i) = false :=
      Nat.testBit_eq_false_of_lt (by
        calc (0x0F00 : Nat) < 2 ^ 12 := by norm_num
          _ ≤ 2 ^ (8 + i) := Nat.pow_le_pow_right (by norm_num) (by omega))
    simp [hf, Nat.not_lt.mpr hi]

theorem opY_eq (n : Nat) : opY n = n / 16 % 16 := by
  have h16d : n / 16 = n >>> 4 := by
    rw [Nat.shiftRight_eq_div_pow]
  have h16 : n >>> 4 % 16 = n >>> 4 % 2 ^ 4 := by norm_num
  rw [opY, h16d, h16]
  apply Nat.eq_of_testBit_eq
  intro i
  rw [Nat.testBit_shiftRight, Nat.testBit_land n 0x00F0 (4 + i),
    Nat.testBit_mod_two_pow, Nat.testBit_shiftRight]
  rcases Nat.lt_or_ge i 4 with hi | hi
  · interval_cases i <;> simp +decide
  · have hf : Nat.testBit 0x00F0 (4 + i) = false :=
      Nat.testBit_eq_false_of_lt (by
        calc (0x00F0 : Nat) < 2 ^ 8 := by norm_num
          _ ≤ 2 ^ (4 + i) := Nat.pow_le_pow_right (by norm_num) (by omega))
    simp [hf, Nat.not_lt.mpr hi]

theorem call_ok (s : Cpu) (addr : Nat) (h : s.stack_pointer < 16) :
    s.call addr = Except.ok
      { s with
        stack := updateFn s.stack s.stack_pointer (s.position_in_memory % 65536)
        stack_pointer := s.stack_pointer + 1
        position_in_memory := addr } := by
  unfold Cpu.call
  rw [if_neg (by omega), if_pos h]

theorem ret_ok (s : Cpu) (h0 : s.stack_pointer ≠ 0) (h16 : s.stack_pointer ≤ 16) :
    s.ret = Except.ok
      { s with
        stack_pointer := s.stack_pointer - 1
        position_in_memory := s.stack (s.stack_pointer - 1) } := by
  unfold Cpu.ret
  rw [if_neg h0, if_pos (by omega)]

theorem execute_call (s1 : Cpu) (opcode : Nat)
    (hlo : 0x2000 ≤ opcode) (hhi : opcode ≤ 0x2FFF)
    (hsp : s1.stack_pointer < 16) :
    Cpu.execute s1 opcode = StepResult.next
      { s1 with
        stack := updateFn s1.stack s1.stack_pointer (s1.position_in_memory % 65536)
        stack_pointer := s1.stack_pointer + 1
        position_in_memory := opAddr opcode } := by
  unfold Cpu.execute
  rw [if_neg (by omega), if_neg (by omega), if_pos ⟨hlo, hhi⟩, call_ok _ _ hsp]

theorem execute_ret (s1 : Cpu)
    (h0 : s1.stack_pointer ≠ 0) (h16 : s1.stack_pointer ≤ 16) :
    Cpu.execute s1 0x00EE = StepResult.next
      { s1 with
        position_in_memory := s1.stack (s1.stack_pointer - 1)
        stack_pointer := s1.stack_pointer - 1 } := by
  unfold Cpu.execute
  rw [if_neg (by omega), if_pos rfl, ret_ok _ h0 h16]

theorem execute_ret_underflow (s1 : Cpu) (h0 : s1.stack_pointer = 0) :
    Cpu.execute s1 0x00EE = StepResult.fault Fault.stackUnderflow s1 := by
  unfold Cpu.execute Cpu.ret
  rw [if_neg (by omega), if_pos rfl, if_pos h0]

theorem step_call (s : Cpu) (hp : s.position_in_memory + 1 < 4096)
    (hlo : 0x2000 ≤ fetchOpcode s) (hhi : fetchOpcode s ≤ 0x2FFF)
    (hsp : s.stack_pointer < 16) :
    s.step = StepResult.next
      { s with
        stack := updateFn s.stack s.stack_pointer ((s.position_in_memory + 2) % 65536)
        stack_pointer := s.stack_pointer + 1
        position_in_memory := opAddr (fetchOpcode s) } := by
  unfold Cpu.step
  rw [if_pos hp,
    execute_call { s with position_in_memory := s.position_in_memory + 2 }
      (fetchOpcode s) hlo hhi hsp]

theorem step_ret (s : Cpu) (hp : s.position_in_memory + 1 < 4096)
    (hee : fetchOpcode s = 0x00EE)
    (h0 : s.stack_pointer ≠ 0) (h16 : s.stack_pointer ≤ 16) :
    s.step = StepResult.next
      { s with
        position_in_memory := s.stack (s.stack_pointer - 1)
        stack_pointer := s.stack_pointer - 1 } := by
  unfold Cpu.step
  rw [if_pos hp, hee,
    execute_ret { s with position_in_memory := s.position_in_memory + 2 } h0 h16]

theorem step_ret_underflow (s : Cpu) (hp : s.position_in_memory + 1 < 4096)
    (hee : fetchOpcode s = 0x00EE) (h0 : s.stack_pointer = 0) :
    s.step = StepResult.fault Fault.stackUnderflow
      { s with position_in_memory := s.position_in_memory + 2 } := by
  unfold Cpu.step
  rw [if_pos hp, hee,
    execute_ret_underflow { s with position_in_memory := s.position_in_memory + 2 } h0]

theorem step_halt (s : Cpu) (hp : s.position_in_memory + 1 < 4096)
    (h0 : fetchOpcode s = 0) :
    s.step = StepResult.halt
      { s with position_in_memory := s.position_in_memory + 2 } := by
  unfold Cpu.step
  rw [if_pos hp, h0]
  unfold Cpu.execute
  rw [if_pos rfl]

theorem assign_memory (s : Cpu) (x y : Nat) :
    (Cpu.assign s x y).memory = s.memory := rfl

theorem or_xy_memory (s : Cpu) (x y : Nat) :
    (Cpu.or_xy s x y).memory = s.memory := rfl

theorem and_xy_memory (s : Cpu) (x y : Nat) :
    (Cpu.and_xy s x y).memory = s.memory := rfl

theorem xor_xy_memory (s : Cpu) (x y : Nat) :
    (Cpu.xor_xy s x y).memory = s.memory := rfl

theorem add_xy_memory (s : Cpu) (x y : Nat) :
    (Cpu.add_xy s x y).memory = s.memory := by
  unfold Cpu.add_xy
  split <;> rfl

theorem sub_xy_memory (s : Cpu) (x y : Nat) :
    (Cpu.sub_xy s x y).memory = s.memory := by
  unfold Cpu.sub_xy
  split <;> rfl

theorem shift_right_1_memory (s : Cpu) (x : Nat) :
    (Cpu.shift_right_1 s x).memory = s.memory := rfl

theorem set_sub_xy_memory (s : Cpu) (x y : Nat) :
    (Cpu.set_sub_xy s x y).memory = s.memory := by
  unfold Cpu.set_sub_xy
  split <;> rfl

theorem shift_left_1_memory (s : Cpu) (x : Nat) :
    (Cpu.shift_left_1 s x).memory = s.memory := rfl

theorem call_memory (s : Cpu) (addr : Nat) (s2 : Cpu)
    (h : s.call addr = Except.ok s2) : s2.memory = s.memory := by
  unfold Cpu.call at h
  split at h
  · cases h
  · split at h
    · cases h
      rfl
    · cases h

theorem ret_memory (s : Cpu) (s2 : Cpu)
    (h : s.ret = Except.ok s2) : s2.memory = s.memory := by
  unfold Cpu.ret at h
  split at h
  · cases h
  · split at h
    · cases h
      rfl
    · cases h

theorem execute_memory (s1 : Cpu) (opc : Nat) :
    (Cpu.execute s1 opc).cpu.memory = s1.memory := by
  unfold Cpu.execute
  dsimp only
  by_cases h0 : opc = 0
  · rw [if_pos h0]
    rfl
  · rw [if_neg h0]
    by_cases hee : opc = 238
    · rw [if_pos hee]
      cases hr : s1.ret with
      | ok s2 => exact ret_memory _ _ hr
      | error f => rfl
    · rw [if_neg hee]
      by_cases hc : 8192 ≤ opc ∧ opc ≤ 12287
      · rw [if_pos hc]
        cases hr : s1.call (opAddr opc) with
        | ok s2 => exact call_memory _ _ _ hr
        | error f => rfl
      · rw [if_neg hc]
        by_cases h8 : 32768 ≤ opc ∧ opc ≤ 36863
        · rw [if_pos h8]
          by_cases m0 : opMinor opc = 0
          · rw [if_pos m0]
            rfl
          · rw [if_neg m0]
            by_cases m1 : opMinor opc = 1
            · rw [if_pos m1]
              rfl
            · rw [if_neg m1]
              by_cases m2 : opMinor opc = 2
              · rw [if_pos m2]
                rfl
              · rw [if_neg m2]
                by_cases m3 : opMinor opc = 3
                · rw [if_pos m3]
                  rfl
                · rw [if_neg m3]
                  by_cases m4 : opMinor opc = 4
                  · rw [if_pos m4]
                    exact add_xy_memory _ _ _
                  · rw [if_neg m4]
                    by_cases m5 : opMinor opc = 5
                    · rw [if_pos m5]
                      exact sub_xy_memory _ _ _
                    · rw [if_neg m5]
                      by_cases m6 : opMinor opc = 6
                      · rw [if_pos m6]
                        rfl
                      · rw [if_neg m6]
                        by_cases m7 : opMinor opc = 7
                        · rw [if_pos m7]
                          exact set_sub_xy_memory _ _ _
                        · rw [if_neg m7]
                          by_cases mE : opMinor opc = 14
                          · rw [if_pos mE]
                            rfl
                          · rw [if_neg mE]
                            rfl
        · rw [if_neg h8]
          rfl

theorem step_memory (s : Cpu) : (Cpu.step s).cpu.memory = s.memory := by
  unfold Cpu.step
  split
  · exact execute_memory _ _
  · rfl

theorem runFuel_memory (fuel : Nat) :
    ∀ s : Cpu, (Cpu.runFuel fuel s).cpu.memory = s.memory := by
  induction fuel with
  | zero => intro s; rfl
  | succ n ih =>
    intro s
    have hm := step_memory s
    unfold Cpu.runFuel
    cases hs : s.step with
    | halt s2 =>
      rw [hs] at hm
      exact hm
    | fault f s2 =>
      rw [hs] at hm
      exact hm
    | next s2 =>
      rw [hs] at hm
      calc (Cpu.runFuel n s2).cpu.memory = s2.memory := ih s2
        _ = s.memory := hm

/-- Claim C1: for register values a, b in [0,255] held in registers x and y
(both distinct from the flag register 15), add-with-carry (opcode 0x8XY4)
sets the flag register to 1 and leaves register x unchanged (still a) when
a + b > 255, and sets the flag register to 0 and stores a + b into
register x when a + b ≤ 255. -/
theorem add_xy_spec (s : Cpu) (x y a b : Nat)
    (hx : x ≠ 15) (hy : y ≠ 15)
    (ha : s.registers x = a) (hb : s.registers y = b)
    (ha2 : a < 256) (hb2 : b < 256) :
    (255 < a + b →
      (Cpu.add_xy s x y).registers 15 = 1 ∧ (Cpu.add_xy s x y).registers x = a) ∧
    (a + b ≤ 255 →
      (Cpu.add_xy s x y).registers 15 = 0 ∧
      (Cpu.add_xy s x y).registers x = a + b) := by
  constructor
  · intro hcarry
    unfold Cpu.add_xy
    rw [if_pos (by rw [ha, hb]; omega)]
    constructor
    · simp [updateFn]
    · simp [updateFn, hx, ha]
  · intro hnc
    unfold Cpu.add_xy
    rw [if_neg (by rw [ha, hb]; omega)]
    dsimp only
    constructor
    · rw [updateFn_ne _ _ _ _ (Ne.symm hx), updateFn_eq]
    · rw [updateFn_eq, updateFn_ne _ _ _ _ hx, updateFn_ne _ _ _ _ hy, ha, hb]
      omega

/-- Witness for add_xy_spec: registers 200 and 100, carry case. -/
theorem add_xy_spec_witness :
    (Cpu.add_xy cpuAdd 0 1).registers 15 = 1 ∧
    (Cpu.add_xy cpuAdd 0 1).registers 0 = 200 :=
  (add_xy_spec cpuAdd 0 1 200 100 (by decide) (by decide) rfl rfl (by decide)
    (by decide)).1 (by decide)

/-- Claim C2: for register values a, b in [0,255] held in registers x and y
(both distinct from the flag register 15), subtract-with-borrow (opcode
0x8XY5) sets the flag register to 0 and leaves register x unchanged when
a < b (borrow), and sets the flag register to 1 and stores a - b into
register x when a ≥ b (no borrow). -/
theorem sub_xy_spec (s : Cpu) (x y a b : Nat)
    (hx : x ≠ 15) (hy : y ≠ 15)
    (ha : s.registers x = a) (hb : s.registers y = b)
    (ha2 : a < 256) (hb2 : b < 256) :
    (a < b →
      (Cpu.sub_xy s x y).registers 15 = 0 ∧ (Cpu.sub_xy s x y).registers x = a) ∧
    (b ≤ a →
      (Cpu.sub_xy s x y).registers 15 = 1 ∧
      (Cpu.sub_xy s x y).registers x = a - b) := by
  constructor
  · intro hborrow
    unfold Cpu.sub_xy
    rw [if_pos (by rw [ha, hb]; omega)]
    constructor
    · simp [updateFn]
    · simp [updateFn, hx, ha]
  · intro hnb
    unfold Cpu.sub_xy
    rw [if_neg (by rw [ha, hb]; omega)]
    dsimp only
    constructor
    · rw [updateFn_ne _ _ _ _ (Ne.symm hx), updateFn_eq]
    · rw [updateFn_eq, updateFn_ne _ _ _ _ hx, updateFn_ne _ _ _ _ hy, ha, hb]
      omega

/-- Witness for sub_xy_spec: registers 10 and 6, no-borrow case. -/
theorem sub_xy_spec_witness :
    (Cpu.sub_xy cpuSub 0 1).registers 15 = 1 ∧
    (Cpu.sub_xy cpuSub 0 1).registers 0 = 10 - 6 :=
  (sub_xy_spec cpuSub 0 1 10 6 (by decide) (by decide) rfl rfl (by decide)
    (by decide)).2 (by decide)

/-- Claim C3 concerns the overflow check of `Cpu::call`.  The source guard
is `stack_pointer > capacity` rather than `>=`: at stack pointer exactly 16
(the capacity) the "Stack overflow" branch is NOT taken and the write
`stack[16]` aborts with Rust's index-out-of-bounds panic instead; only at
stack pointer 17 or more does the StackOverflow signal fire. -/
theorem call_overflow_off_by_one :
    Cpu.call cpuFull 0x100 = Except.error Fault.outOfBounds ∧
    Cpu.call cpuFull 0x100 ≠ Except.error Fault.stackOverflow ∧
    Cpu.call cpuPast 0x100 = Except.error Fault.stackOverflow := by
  refine ⟨rfl, ?_, rfl⟩
  intro h
  have h1 : Cpu.call cpuFull 0x100 = Except.error Fault.outOfBounds := rfl
  rw [h1] at h
  exact Fault.noConfusion (Except.error.inj h)

/-- Claim C5: for a register value v in [0,255] held in register x (distinct
from the flag register 15), shift-left (opcode 0x8XYE) sets the flag
register to the least-significant bit of v (captured before mutation) and
sets register x to v shifted left by one, truncated to 8 bits. -/
theorem shift_left_1_spec (s : Cpu) (x v : Nat)
    (hx : x ≠ 15) (hv : s.registers x = v) (hv2 : v < 256) :
    (Cpu.shift_left_1 s x).registers 15 = v % 2 ∧
    (Cpu.shift_left_1 s x).registers x = 2 * v % 256 := by
  unfold Cpu.shift_left_1
  dsimp only
  constructor
  · rw [updateFn_ne _ _ _ _ (Ne.symm hx), updateFn_eq, hv, Nat.and_one_is_mod]
  · rw [updateFn_eq, updateFn_ne _ _ _ _ hx, hv, Nat.shiftLeft_eq, pow_one,
      Nat.mul_comm]

/-- Witness for shift_left_1_spec: register 0 holds 3, result 6 and flag 1. -/
theorem shift_left_1_spec_witness :
    (Cpu.shift_left_1 cpuShift 0).registers 15 = 3 % 2 ∧
    (Cpu.shift_left_1 cpuShift 0).registers 0 = 2 * 3 % 256 :=
  shift_left_1_spec cpuShift 0 3 (by decide) rfl (by decide)

/-- Claim C6: return (opcode 0x00EE) with stack pointer 0 signals
StackUnderflow and mutates nothing beyond the fetch advance of the program
counter; with nonzero stack pointer (within the capacity invariant
`sp ≤ 16` maintained by call) it decrements the stack pointer and reloads
the program counter from the popped slot. -/
theorem ret_spec :
    (∀ s : Cpu, s.stack_pointer = 0 →
      s.ret = Except.error Fault.stackUnderflow) ∧
    (∀ s : Cpu, s.stack_pointer ≠ 0 → s.stack_pointer ≤ 16 →
      s.ret = Except.ok
        { s with
          stack_pointer := s.stack_pointer - 1
          position_in_memory := s.stack (s.stack_pointer - 1) }) ∧
    (∀ s : Cpu, s.position_in_memory + 1 < 4096 →
      s.memory s.position_in_memory = 0x00 →
      s.memory (s.position_in_memory + 1) = 0xEE →
      s.stack_pointer = 0 →
      s.step = StepResult.fault Fault.stackUnderflow
        { s with position_in_memory := s.position_in_memory + 2 }) := by
  refine ⟨?_, ?_, ?_⟩
  · intro s h0
    unfold Cpu.ret
    rw [if_pos h0]
  · intro s h0 h16
    exact ret_ok s h0 h16
  · intro s hp h1 h2 h0
    apply step_ret_underflow s hp ?_ h0
    unfold fetchOpcode
    dsimp only
    rw [h1, h2]
    decide

/-- Witness for ret_spec: a pop from stack slot 0, and a ret-on-empty-stack
fault after the fetch advanced the counter to 2. -/
theorem ret_spec_witness :
    cpuPop.ret = Except.ok
      { cpuPop with
        stack_pointer := cpuPop.stack_pointer - 1
        position_in_memory := cpuPop.stack (cpuPop.stack_pointer - 1) } ∧
    cpuRet.step = StepResult.fault Fault.stackUnderflow
      { cpuRet with position_in_memory := cpuRet.position_in_memory + 2 } :=
  ⟨ret_spec.2.1 cpuPop (by decide) (by decide),
   ret_spec.2.2 cpuRet (by decide) rfl rfl rfl⟩

/-- Claim C8: reset yields exactly the default-initialized state (all 16
registers, all memory bytes and all stack entries zero, program counter 0,
stack pointer 0), and reset is idempotent. -/
theorem reset_spec (s : Cpu) :
    (∀ i, (Cpu.reset s).registers i = 0) ∧
    (∀ i, (Cpu.reset s).memory i = 0) ∧
    (∀ i, (Cpu.reset s).stack i = 0) ∧
    (Cpu.reset s).position_in_memory = 0 ∧
    (Cpu.reset s).stack_pointer = 0 ∧
    Cpu.reset s = Cpu.default ∧
    Cpu.reset (Cpu.reset s) = Cpu.reset s :=
  ⟨fun _ => rfl, fun _ => rfl, fun _ => rfl, rfl, rfl, rfl, rfl⟩

/-- Claim C9: execution never writes to memory: every register/arithmetic/
shift handler leaves the memory array untouched, and so do a whole
fetch-decode-execute step and any bounded number of iterations of run
(including the state carried at a halt or a fault). -/
theorem run_never_writes_memory :
    (∀ s : Cpu, ∀ x y : Nat, (Cpu.assign s x y).memory = s.memory) ∧
    (∀ s : Cpu, ∀ x y : Nat, (Cpu.or_xy s x y).memory = s.memory) ∧
    (∀ s : Cpu, ∀ x y : Nat, (Cpu.and_xy s x y).memory = s.memory) ∧
    (∀ s : Cpu, ∀ x y : Nat, (Cpu.xor_xy s x y).memory = s.memory) ∧
    (∀ s : Cpu, ∀ x y : Nat, (Cpu.add_xy s x y).memory = s.memory) ∧
    (∀ s : Cpu, ∀ x y : Nat, (Cpu.sub_xy s x y).memory = s.memory) ∧
    (∀ s : Cpu, ∀ x : Nat, (Cpu.shift_right_1 s x).memory = s.memory) ∧
    (∀ s : Cpu, ∀ x y : Nat, (Cpu.set_sub_xy s x y).memory = s.memory) ∧
    (∀ s : Cpu, ∀ x : Nat, (Cpu.shift_left_1 s x).memory = s.memory) ∧
    (∀ s : Cpu, (Cpu.step s).cpu.memory = s.memory) ∧
    (∀ fuel : Nat, ∀ s : Cpu, (Cpu.runFuel fuel s).cpu.memory = s.memory) :=
  ⟨assign_memory, or_xy_memory, and_xy_memory, xor_xy_memory, add_xy_memory,
   sub_xy_memory, shift_right_1_memory, set_sub_xy_memory, shift_left_1_memory,
   step_memory, runFuel_memory⟩

/-- Claim C10: when an arithmetic or shift handler targets X = 15, the flag
write and the result write alias: shift-left with X = 15 leaves register 15
holding the captured low bit itself shifted, i.e. (v AND 1) shifted left by
one; add-with-carry with X = 15, Y ≠ 15 and no carry leaves register 15
holding 0 + register Y's value instead of the documented flag value 0. -/
theorem flag_alias_spec :
    (∀ s : Cpu,
      (Cpu.shift_left_1 s 15).registers 15 = (s.registers 15 &&& 1) <<< 1) ∧
    (∀ s : Cpu, ∀ y b : Nat, y ≠ 15 → s.registers y = b → b < 256 →
      s.registers 15 + b ≤ 255 →
      (Cpu.add_xy s 15 y).registers 15 = b) := by
  constructor
  · intro s
    unfold Cpu.shift_left_1
    dsimp only
    rw [updateFn_eq, updateFn_eq]
    have h1 : s.registers 15 &&& 1 ≤ 1 := by
      rw [Nat.and_one_is_mod]
      omega
    rw [Nat.shiftLeft_eq, pow_one, Nat.mod_eq_of_lt (by omega)]
  · intro s y b hy hb hblt hnc
    unfold Cpu.add_xy
    rw [if_neg (by rw [hb]; omega)]
    dsimp only
    rw [updateFn_eq, updateFn_eq, updateFn_ne _ _ _ _ hy, hb]
    omega

/-- Witness for flag_alias_spec: register 15 holds 3; shift-left X=15 gives
register 15 = 2, and add X=15 Y=1 with register 1 = 7 gives register 15 = 7. -/
theorem flag_alias_spec_witness :
    (Cpu.shift_left_1 cpuAlias 15).registers 15 = (cpuAlias.registers 15 &&& 1) <<< 1 ∧
    (Cpu.add_xy cpuAlias2 15 1).registers 15 = 7 :=
  ⟨flag_alias_spec.1 cpuAlias,
   flag_alias_spec.2 cpuAlias2 1 7 (by decide) rfl (by decide) (by decide)⟩

/-- Claim C7: with the program counter p such that p+1 is a valid memory
index, the fetch combines the bytes at p and p+1 big-endian into a 16-bit
opcode; the decoded fields are X = bits 8-11, Y = bits 4-7,
minor = bits 0-3 and addr = bits 0-11 of that opcode; and the program
counter is advanced by exactly 2 before the handler runs, so the halt state
carries p+2 and a call pushes p+2 while its own program-counter write (to
addr) is not clobbered afterwards. -/
theorem fetch_decode_spec (s : Cpu) (b1 b2 : Nat)
    (hp : s.position_in_memory + 1 < 4096)
    (h1 : s.memory s.position_in_memory = b1)
    (h2 : s.memory (s.position_in_memory + 1) = b2)
    (hb1 : b1 < 256) (hb2 : b2 < 256) :
    fetchOpcode s = b1 * 256 + b2 ∧
    opX (fetchOpcode s) = fetchOpcode s / 2 ^ 8 % 2 ^ 4 ∧
    opY (fetchOpcode s) = fetchOpcode s / 2 ^ 4 % 2 ^ 4 ∧
    opMinor (fetchOpcode s) = fetchOpcode s % 2 ^ 4 ∧
    opAddr (fetchOpcode s) = fetchOpcode s % 2 ^ 12 ∧
    (fetchOpcode s = 0 →
      s.step = StepResult.halt
        { s with position_in_memory := s.position_in_memory + 2 }) ∧
    (0x2000 ≤ fetchOpcode s → fetchOpcode s ≤ 0x2FFF → s.stack_pointer < 16 →
      s.step = StepResult.next
        { s with
          stack := updateFn s.stack s.stack_pointer
            ((s.position_in_memory + 2) % 65536)
          stack_pointer := s.stack_pointer + 1
          position_in_memory := opAddr (fetchOpcode s) }) := by
  have hop : fetchOpcode s = b1 * 256 + b2 := by
    unfold fetchOpcode
    dsimp only
    rw [h1, h2]
    exact shiftLeft_lor_eq b1 b2 hb2
  refine ⟨hop, ?_, ?_, ?_, ?_, ?_, ?_⟩
  · rw [opX_eq]
    norm_num
  · rw [opY_eq]
    norm_num
  · rw [opMinor_eq]
    norm_num
  · rw [opAddr_eq]
    norm_num
  · intro h0
    exact step_halt s hp h0
  · intro hlo hhi hsp
    exact step_call s hp hlo hhi hsp

/-- Witness for fetch_decode_spec on cpuCall: opcode 0x2100 decoded, push of
the advanced counter and jump to the masked address. -/
theorem fetch_decode_spec_witness :
    fetchOpcode cpuCall = 0x21 * 256 + 0 ∧
    cpuCall.step = StepResult.next
      { cpuCall with
        stack := updateFn cpuCall.stack cpuCall.stack_pointer
          ((cpuCall.position_in_memory + 2) % 65536)
        stack_pointer := cpuCall.stack_pointer + 1
        position_in_memory := opAddr (fetchOpcode cpuCall) } :=
  ⟨(fetch_decode_spec cpuCall 0x21 0 (by decide) rfl rfl (by decide)
      (by decide)).1,
   (fetch_decode_spec cpuCall 0x21 0 (by decide) rfl rfl (by decide)
      (by decide)).2.2.2.2.2.2 (by decide) (by decide) (by decide)⟩

/-- Claim C4: from any state with stack pointer strictly below capacity,
executing a call instruction (first byte 0x2N, any second byte) and then,
at the called address, a return instruction 0x00EE, yields a state whose
program counter is exactly the address after the original call
instruction and whose stack pointer equals its pre-call value. -/
theorem call_ret_roundtrip (s : Cpu) (b1 b2 : Nat)
    (hp : s.position_in_memory + 1 < 4096)
    (h1 : s.memory s.position_in_memory = b1)
    (h2 : s.memory (s.position_in_memory + 1) = b2)
    (hb1 : 0x20 ≤ b1) (hb1h : b1 ≤ 0x2F) (hb2 : b2 < 256)
    (hsp : s.stack_pointer < 16)
    (hA : b1 % 16 * 256 + b2 + 1 < 4096)
    (h3 : s.memory (b1 % 16 * 256 + b2) = 0x00)
    (h4 : s.memory (b1 % 16 * 256 + b2 + 1) = 0xEE) :
    ∃ s1 s2 : Cpu,
      s.step = StepResult.next s1 ∧
      s1.step = StepResult.next s2 ∧
      s2.position_in_memory = s.position_in_memory + 2 ∧
      s2.stack_pointer = s.stack_pointer := by
  have hop : fetchOpcode s = b1 * 256 + b2 := by
    unfold fetchOpcode
    dsimp only
    rw [h1, h2]
    exact shiftLeft_lor_eq b1 b2 hb2
  have haddr : opAddr (fetchOpcode s) = b1 % 16 * 256 + b2 := by
    rw [hop, opAddr_eq]
    omega
  have hstep1 := step_call s hp (by rw [hop]; omega) (by rw [hop]; omega) hsp
  rw [haddr] at hstep1
  have hf2 : fetchOpcode
      ({ s with
        stack := updateFn s.stack s.stack_pointer
          ((s.position_in_memory + 2) % 65536)
        stack_pointer := s.stack_pointer + 1
        position_in_memory := b1 % 16 * 256 + b2 } : Cpu) = 0x00EE := by
    unfold fetchOpcode
    dsimp only
    rw [h3, h4]
    decide
  have hstep2 := step_ret
    { s with
      stack := updateFn s.stack s.stack_pointer
        ((s.position_in_memory + 2) % 65536)
      stack_pointer := s.stack_pointer + 1
      position_in_memory := b1 % 16 * 256 + b2 }
    hA hf2 (Nat.succ_ne_zero s.stack_pointer) (Nat.succ_le_of_lt hsp)
  refine ⟨_, _, hstep1, hstep2, ?_, ?_⟩
  · show updateFn s.stack s.stack_pointer ((s.position_in_memory + 2) % 65536)
      (s.stack_pointer + 1 - 1) = s.position_in_memory + 2
    rw [Nat.add_sub_cancel, updateFn_eq, Nat.mod_eq_of_lt (by omega)]
  · show s.stack_pointer + 1 - 1 = s.stack_pointer
    omega

/-- Witness for call_ret_roundtrip on cpuCall: call 0x100 then ret lands
back at address 2 with an empty stack. -/
theorem call_ret_roundtrip_witness :
    ∃ s1 s2 : Cpu,
      cpuCall.step = StepResult.next s1 ∧
      s1.step = StepResult.next s2 ∧
      s2.position_in_memory = cpuCall.position_in_memory + 2 ∧
      s2.stack_pointer = cpuCall.stack_pointer :=
  call_ret_roundtrip cpuCall 0x21 0 (by decide) rfl rfl (by decide) (by decide)
    (by decide) (by decide) (by decide) rfl rfl
